import Mathlib

/-!
Shallow embedding of the connext/vector state-channel core pieces under
verification: the in-memory protocol messaging service, the channel
commitment signing/validation helpers, the transfer condition-program
execution wrappers, the deposit reconciliation algorithm, and the
generic Result class.  External collaborators (hashing, signature
recovery, ABI encoding, the EVM sandbox, the chain reader) are passed
in as function parameters, mirroring how the source consumes them
through imports and interfaces.
-/

namespace Connext

/-- A channel update as far as the messaging layer inspects it
(`fromIdentifier` / `toIdentifier` routing fields plus identifying
fields). -/
structure ChannelUpdate where
  channelAddress : String
  fromIdentifier : String
  toIdentifier : String
  nonce : Nat
deriving DecidableEq, Repr

/-- Error payload of a protocol reply (`InboundChannelUpdateError` from
vector-types; only its presence matters to the code under study). -/
structure InboundChannelUpdateError where
  message : String
deriving DecidableEq, Repr

/-- The `data` field of a bus message: optional update, optional
previous update, optional error. -/
structure MsgData where
  update : Option ChannelUpdate
  previousUpdate : Option ChannelUpdate
  error : Option InboundChannelUpdateError
deriving DecidableEq, Repr

/-- A message on the in-memory Evt bus of `MemoryMessagingService`
(fields `to`, `from`, `inbox?`, `data`, `sentBy`). -/
structure Msg where
  to_ : String
  from_ : String
  inbox : Option String
  data : MsgData
  sentBy : String
deriving DecidableEq, Repr

/-- The reply filter of `sendProtocolMessage` (source lines 43-47).
The callback destructures `inbox` from the incoming message, which
shadows the freshly generated `inbox` of the enclosing scope, so the
comparison `inbox === inbox` compares the message field with itself.
The `generatedInbox` parameter is therefore in scope but unused,
exactly as in the source. -/
def protocolReplyFilter (channelUpdate : ChannelUpdate) (generatedInbox : String)
    (m : Msg) : Bool :=
  m.from_ == channelUpdate.toIdentifier &&
  m.to_ == channelUpdate.fromIdentifier &&
  m.inbox == m.inbox &&
  m.sentBy == channelUpdate.toIdentifier

/-- Outcome of awaiting `sendProtocolMessage`: the returned `Result`
(`ok` / `fail` constructors mirror `Result.ok` / `Result.fail`), or the
promise rejecting because `waitFor(timeout)` threw Evt's timeout error
before any matching reply arrived. -/
inductive SendOutcome where
  | ok (update : Option ChannelUpdate) (previousUpdate : Option ChannelUpdate)
  | fail (error : InboundChannelUpdateError)
  | evtTimeoutThrown
deriving DecidableEq, Repr

/-- `sendProtocolMessage` reply handling (source lines 40-61): the first
bus message passing the filter within the timeout window decides the
outcome; `res.data.error` present means `Result.fail(error)`, otherwise
`Result.ok` of the (non-null-asserted) update pair.  `replies` lists the
bus messages arriving before the timeout, in order. -/
def sendProtocolMessage (channelUpdate : ChannelUpdate)
    (previousUpdate : Option ChannelUpdate) (inbox : String)
    (replies : List Msg) : SendOutcome :=
  match replies.find? (protocolReplyFilter channelUpdate inbox) with
  | none => SendOutcome.evtTimeoutThrown
  | some res =>
    match res.data.error with
    | some e => SendOutcome.fail e
    | none => SendOutcome.ok res.data.update res.data.previousUpdate

/-- Number of `evt.post` calls one invocation of `sendProtocolMessage`
performs: the body (source lines 40-61) posts exactly once and contains
no retry loop; the `numRetries` parameter is never read. -/
def sendProtocolMessageAttempts (numRetries : Nat) : Nat := 1

/-- The message `sendProtocolMessage` posts (source lines 50-56). -/
def sendProtocolMessagePosted (channelUpdate : ChannelUpdate)
    (previousUpdate : Option ChannelUpdate) (inbox : String) : Msg :=
  { to_ := channelUpdate.toIdentifier
    from_ := channelUpdate.fromIdentifier
    inbox := some inbox
    data := { update := some channelUpdate, previousUpdate := previousUpdate, error := none }
    sentBy := channelUpdate.fromIdentifier }

/-- The message `respondToProtocolMessage` posts (source lines 64-77). -/
def respondToProtocolMessagePosted (sentBy : String) (channelUpdate : ChannelUpdate)
    (inbox : String) (previousUpdate : Option ChannelUpdate) : Msg :=
  { to_ := channelUpdate.fromIdentifier
    from_ := channelUpdate.toIdentifier
    inbox := some inbox
    data := { update := some channelUpdate, previousUpdate := previousUpdate, error := none }
    sentBy := sentBy }

/-- The message `respondWithProtocolError` posts (source lines 79-92). -/
def respondWithProtocolErrorPosted (updateFromIdentifier updateToIdentifier : String)
    (inbox : String) (error : InboundChannelUpdateError) : Msg :=
  { to_ := updateFromIdentifier
    from_ := updateToIdentifier
    inbox := some inbox
    data := { update := none, previousUpdate := none, error := some error }
    sentBy := updateToIdentifier }

/-- A message carries exactly one of `data.update` or `data.error`. -/
def exactlyOneUpdateOrError (m : Msg) : Bool :=
  m.data.update.isSome != m.data.error.isSome

/-- Reason strings of `MessagingError` (error.ts lines 101-112). -/
def messagingErrorReasonTimeout : String := "Request timed out"

/-- Reason strings of `MessagingError` (error.ts lines 101-112). -/
def messagingErrorReasonUnknown : String := "Unknown messaging error"

/-- Untyped JavaScript value, restricted to what the `Result` class of
error.ts can observe: truthiness. -/
inductive JsVal where
  | undef
  | null
  | bool (b : Bool)
  | num (n : Int)
  | str (s : String)
  | obj (id : Nat)
deriving DecidableEq, Repr

/-- JavaScript truthiness: `undefined`, `null`, `false`, `0`, and the
empty string are falsy; everything else (objects included) is truthy. -/
def JsVal.truthy : JsVal → Bool
  | JsVal.undef => false
  | JsVal.null => false
  | JsVal.bool b => b
  | JsVal.num n => n != 0
  | JsVal.str s => s != ""
  | JsVal.obj _ => true

/-- The `Result` class of error.ts over untyped values: `isError` flag
plus the `value` / `error` private fields (unset ≡ `undefined`). -/
structure JsResult where
  isError : Bool
  value : JsVal
  error : JsVal
deriving DecidableEq, Repr

/-- The private constructor of `Result` (error.ts lines 9-17): branches
on the truthiness of `error`. -/
def JsResult.ctor (error value : JsVal) : JsResult :=
  if error.truthy then
    { isError := true, value := JsVal.undef, error := error }
  else
    { isError := false, value := value, error := JsVal.undef }

/-- `Result.ok(result)` = `new Result(undefined, result)` (error.ts
lines 59-61). -/
def JsResult.ok (result : JsVal) : JsResult :=
  JsResult.ctor JsVal.undef result

/-- `Result.fail(error)` = `new Result(error)` (error.ts lines 55-57). -/
def JsResult.fail (error : JsVal) : JsResult :=
  JsResult.ctor error JsVal.undef

/-- `getValue()` (error.ts lines 19-24): throws on an error result; the
thrown payload is modelled as the stored error value. -/
def JsResult.getValue (r : JsResult) : Except JsVal JsVal :=
  if r.isError then Except.error r.error else Except.ok r.value

/-- `getError()` (error.ts lines 26-31): the stored error on an error
result, `undefined` otherwise. -/
def JsResult.getError (r : JsResult) : JsVal :=
  if r.isError then r.error else JsVal.undef

/-- Per-asset two-element balance: `to` addresses and string big-number
`amount`s (amounts modelled as integers). -/
structure Balance where
  to_ : List String
  amount : List Int
deriving DecidableEq, Repr

/-- The network context of a channel: chain id and adjudicator address
(spec data model; carried by `FullChannelState` in vector-types). -/
structure NetworkContext where
  chainId : Nat
  adjudicatorAddress : String
deriving DecidableEq, Repr

/-- The core channel state fields (`CoreChannelState`). -/
structure CoreChannelState where
  channelAddress : String
  participants : List String
  timeout : Nat
  balances : List Balance
  lockedBalance : List Int
  assetIds : List String
  nonce : Nat
  latestDepositNonce : Nat
  merkleRoot : String
deriving DecidableEq, Repr

/-- The rest object produced by the destructuring
`const (publicIdentifiers, networkContext, ...core) = state` in
generateSignedChannelCommitment and validateChannelUpdateSignatures:
every field of the full state except `publicIdentifiers` and
`networkContext`, so the `latestUpdate` field stays in it. -/
structure CoreRest extends CoreChannelState where
  latestUpdate : Option ChannelUpdate
deriving DecidableEq, Repr

/-- `FullChannelState`: core fields plus `latestUpdate`,
`publicIdentifiers` and `networkContext` (per the spec data model;
the type itself lives in vector-types). -/
structure FullChannelState extends CoreRest where
  publicIdentifiers : List String
  networkContext : NetworkContext
deriving DecidableEq, Repr

/-- `ChannelCommitmentData`: the commitment triple together with the
signature array (signature slots may be empty/undefined). -/
structure ChannelCommitmentData where
  chainId : Nat
  state : CoreRest
  adjudicatorAddress : String
  signatures : List (Option String)
deriving DecidableEq, Repr

/-- JavaScript truthiness of a signature slot (`!!x` in the
`filter((x) => !!x)` calls): present and not the empty string. -/
def truthySig : Option String → Bool
  | none => false
  | some s => s != ""

/-- The record both functions hash: `(...unsigned, signatures: [])` in
generateSignedChannelCommitment (source line 233) and the literal with
`signatures: []` in validateChannelUpdateSignatures (source lines
254-259).  Built from the state alone; the signatures field is empty. -/
def commitmentHashPreimage (state : FullChannelState) : ChannelCommitmentData :=
  { chainId := state.networkContext.chainId
    state := state.toCoreRest
    adjudicatorAddress := state.networkContext.adjudicatorAddress
    signatures := [] }

/-- `generateSignedChannelCommitment` (source lines 210-240).
`hashChannelCommitment` and `signMessage` are the external hashing and
signing collaborators; `signerAddress` is `signer.address`. -/
def generateSignedChannelCommitment
    (hashChannelCommitment : ChannelCommitmentData → String)
    (signerAddress : String) (signMessage : String → String)
    (newState : FullChannelState)
    (updateSignatures : List (Option String)) : ChannelCommitmentData :=
  let filteredSigs := updateSignatures.filter truthySig
  if filteredSigs.length = 2 then
    { chainId := newState.networkContext.chainId
      state := newState.toCoreRest
      adjudicatorAddress := newState.networkContext.adjudicatorAddress
      signatures := updateSignatures }
  else
    let counterpartySignature := filteredSigs.head?.join
    let sig := signMessage (hashChannelCommitment (commitmentHashPreimage newState))
    let idx := newState.participants.findIdx? (fun p => p == signerAddress)
    { chainId := newState.networkContext.chainId
      state := newState.toCoreRest
      adjudicatorAddress := newState.networkContext.adjudicatorAddress
      signatures :=
        if idx = some 0 then [some sig, counterpartySignature]
        else [counterpartySignature, some sig] }

/-- The per-slot callback of `validateChannelUpdateSignatures` (source
lines 262-268): empty slots yield undefined; a present signature is
kept only when the recovered address equals `participants[idx]` (an
out-of-range index gives undefined, which never equals an address). -/
def checkSig (recoverAddressFromChannelMessage : String → String → String)
    (participants : List String) (hash : String)
    (idx : Nat) (sigToVerify : Option String) : Option String :=
  match sigToVerify with
  | none => none
  | some s =>
    if s == "" then none
    else
      match participants[idx]? with
      | some participant =>
        if recoverAddressFromChannelMessage hash s == participant then some s else none
      | none => none

/-- `validateChannelUpdateSignatures` (source lines 243-275): rejection
message when fewer than `requiredSigs` slots are non-empty, else
rejection when fewer than `requiredSigs` slots survive per-slot
recovery, else no error. -/
def validateChannelUpdateSignatures
    (hashChannelCommitment : ChannelCommitmentData → String)
    (recoverAddressFromChannelMessage : String → String → String)
    (state : FullChannelState) (updateSignatures : List (Option String))
    (requiredSigs : Nat) : Option String :=
  let present := (updateSignatures.filter truthySig).length
  if present < requiredSigs then
    some ("Only " ++ toString present ++ "/" ++ toString requiredSigs ++
      " signatures present")
  else
    let hash := hashChannelCommitment (commitmentHashPreimage state)
    let valid := ((updateSignatures.enum.map
      (fun p => checkSig recoverAddressFromChannelMessage state.participants hash p.1 p.2)).filter
        Option.isSome)
    if valid.length < requiredSigs then
      some ("Only " ++ toString valid.length ++ "/" ++ toString requiredSigs ++
        " are valid signatures")
    else none

/-- A signature slot is valid: non-empty, and recovering (against the
commitment digest of the state) to that slot's own participant. -/
def slotValid (hashChannelCommitment : ChannelCommitmentData → String)
    (recoverAddressFromChannelMessage : String → String → String)
    (state : FullChannelState) (idx : Nat) (sigToVerify : Option String) : Bool :=
  truthySig sigToVerify &&
    match sigToVerify, state.participants[idx]? with
    | some s, some participant =>
      recoverAddressFromChannelMessage
        (hashChannelCommitment (commitmentHashPreimage state)) s == participant
    | _, _ => false

/-- Number of valid signature slots of an update signature array. -/
def validSigCount (hashChannelCommitment : ChannelCommitmentData → String)
    (recoverAddressFromChannelMessage : String → String → String)
    (state : FullChannelState) (updateSignatures : List (Option String)) : Nat :=
  (updateSignatures.enum.filter
    (fun p => slotValid hashChannelCommitment recoverAddressFromChannelMessage state p.1 p.2)).length

/-- An error from the chain reader collaborator. -/
structure ChainError where
  message : String
deriving DecidableEq, Repr

/-- The latest on-chain deposit record returned by
`getLatestDepositByAssetId`: its amount and its nonce (BigNumbers in
the source). -/
structure DepositRecord where
  amount : Int
  nonce : Nat
deriving DecidableEq, Repr

/-- The success payload of `reconcileDeposit`. -/
structure ReconcileResult where
  balance : Balance
  latestDepositNonce : Nat
deriving DecidableEq, Repr

/-- `reconcileDeposit` (source lines 329-368).  The two chain reads are
passed as their results (`Result` of the collaborator modelled as
`Except`); a failed read is propagated as `Result.fail`.  On success,
participant 0's balance is `deposit.amount + initialBalance.amount[0]`
when the chain's deposit nonce exceeds the stored one and unchanged
otherwise; participant 1's balance is the on-chain balance minus
`balanceA + lockedBalance`; the new latestDepositNonce is the chain
record's nonce. -/
def reconcileDeposit (initialBalance : Balance) (latestDepositNonce : Nat)
    (lockedBalance : Int)
    (balanceRes : Except ChainError Int)
    (latestDepositARes : Except ChainError DepositRecord) :
    Except ChainError ReconcileResult :=
  match balanceRes with
  | Except.error e => Except.error e
  | Except.ok onchainBalance =>
    match latestDepositARes with
    | Except.error e => Except.error e
    | Except.ok latestDepositA =>
      let balanceA : Int :=
        if latestDepositNonce < latestDepositA.nonce then
          latestDepositA.amount + initialBalance.amount.headI
        else
          initialBalance.amount.headI
      Except.ok
        { balance :=
            { initialBalance with
              amount := [balanceA, onchainBalance - (balanceA + lockedBalance)] }
          latestDepositNonce := latestDepositA.nonce }

/-- A transfer as the condition-program wrappers inspect it. -/
structure FullTransferState where
  transferId : String
  transferDefinition : String
  transferState : String
  transferResolver : String
  transferEncodings : List String
deriving DecidableEq, Repr

/-- The address at which `create` constructs its `Contract` (source
line 284): `transfer.transferId`. -/
def createContractAddress (transfer : FullTransferState) : String :=
  transfer.transferId

/-- The address at which `resolve` constructs its `Contract` (source
line 306): `transfer.transferDefinition`. -/
def resolveContractAddress (transfer : FullTransferState) : String :=
  transfer.transferDefinition

/-- The `create` wrapper (source lines 277-296).  `abiEncode` is
`defaultAbiCoder.encode` for one value, `encodeFunctionData` builds the
calldata for a method, `execEvmBytecode` runs the sandboxed VM (may
throw), `decodeCreateResult` decodes the returned word (may throw), and
`contractCreate` is the deployed contract's `create` method invoked at
a given address.  Any local failure falls through to the contract
call. -/
def create (transfer : FullTransferState)
    (abiEncode : String → String → String)
    (encodeFunctionData : String → List String → String)
    (execEvmBytecode : String → String → Except String String)
    (decodeCreateResult : String → Except String Bool)
    (contractCreate : String → String → Bool)
    (bytecode : Option String) : Bool :=
  let encodedState := abiEncode (transfer.transferEncodings.headI) transfer.transferState
  match bytecode with
  | some bc =>
    match (execEvmBytecode bc (encodeFunctionData "create" [encodedState])).bind
        decodeCreateResult with
    | Except.ok b => b
    | Except.error _ => contractCreate (createContractAddress transfer) encodedState
  | none => contractCreate (createContractAddress transfer) encodedState

/-- The `resolve` wrapper (source lines 298-327), structured like
`create` but at the transferDefinition address, with the encoded
resolver as second argument and a Balance result. -/
def resolve (transfer : FullTransferState)
    (abiEncode : String → String → String)
    (encodeFunctionData : String → List String → String)
    (execEvmBytecode : String → String → Except String String)
    (decodeResolveResult : String → Except String Balance)
    (contractResolve : String → String → String → Balance)
    (bytecode : Option String) : Balance :=
  let encodedState := abiEncode (transfer.transferEncodings.headI) transfer.transferState
  let encodedResolver :=
    abiEncode (transfer.transferEncodings.tail.headI) transfer.transferResolver
  match bytecode with
  | some bc =>
    match (execEvmBytecode bc
        (encodeFunctionData "resolve" [encodedState, encodedResolver])).bind
        decodeResolveResult with
    | Except.ok b => b
    | Except.error _ =>
      contractResolve (resolveContractAddress transfer) encodedState encodedResolver
  | none => contractResolve (resolveContractAddress transfer) encodedState encodedResolver

/-- Typed view of the `Result` class for protocol payloads: the
private fields, with `undefined` as `none`.  An error object present is
truthy; `undefined` is falsy. -/
structure ResultG (V E : Type) where
  isError : Bool
  value : Option V
  error : Option E
deriving DecidableEq, Repr

/-- The private `Result` constructor at typed payloads. -/
def ResultG.ctor {V E : Type} (error : Option E) (value : Option V) : ResultG V E :=
  if error.isSome then { isError := true, value := none, error := error }
  else { isError := false, value := value, error := none }

/-- `Result.ok(result)` at typed payloads. -/
def ResultG.okR {V E : Type} (result : V) : ResultG V E :=
  ResultG.ctor none (some result)

/-- `Result.fail(error)` at typed payloads. -/
def ResultG.failR {V E : Type} (error : E) : ResultG V E :=
  ResultG.ctor (some error) none

/-- The object handed to the subscriber callback: the (non-null
asserted, hence possibly undefined) update and previousUpdate. -/
structure UpdatePair where
  update : Option ChannelUpdate
  previousUpdate : Option ChannelUpdate
deriving DecidableEq, Repr

/-- `onReceiveProtocolMessage` (source lines 94-114) as a per-message
delivery function: a message whose `to` equals the subscriber's
identifier is handed to the callback as
`(Result.ok(data), from, inbox)`; any other message is dropped. -/
def onReceiveProtocolMessage (myPublicIdentifier : String) (m : Msg) :
    Option (ResultG UpdatePair InboundChannelUpdateError × String × Option String) :=
  if m.to_ == myPublicIdentifier then
    some (ResultG.okR { update := m.data.update, previousUpdate := m.data.previousUpdate },
      m.from_, m.inbox)
  else none

end Connext

namespace Connext

/-- Claim C9: Result.ok(v) has isError false and getValue() returning v;
Result.fail of a truthy error e has isError true, getError() = e and a
throwing getValue(); Result.fail of a falsy error yields isError false,
i.e. a success. -/
theorem resultClass_spec (v e : JsVal) :
    (JsResult.ok v).isError = false ∧
    (JsResult.ok v).getValue = Except.ok v ∧
    (e.truthy = true →
      (JsResult.fail e).isError = true ∧
      (JsResult.fail e).getError = e ∧
      (JsResult.fail e).getValue = Except.error e) ∧
    (e.truthy = false → (JsResult.fail e).isError = false) := by
  refine ⟨?_, ?_, ?_, ?_⟩
  · simp [JsResult.ok, JsResult.ctor, JsVal.truthy]
  · simp [JsResult.ok, JsResult.ctor, JsResult.getValue, JsVal.truthy]
  · intro h
    simp [JsResult.fail, JsResult.ctor, JsResult.getError, JsResult.getValue, h]
  · intro h
    simp [JsResult.fail, JsResult.ctor, h]

/-- Witness for C9 at concrete values: a truthy error object, and the
falsy errors named by the claim (empty string, 0, null). -/
theorem resultClass_spec_witness :
    (JsResult.ok (JsVal.num 5)).getValue = Except.ok (JsVal.num 5) ∧
    (JsResult.fail (JsVal.obj 0)).isError = true ∧
    (JsResult.fail (JsVal.str "")).isError = false ∧
    (JsResult.fail (JsVal.num 0)).isError = false ∧
    (JsResult.fail JsVal.null).isError = false :=
  ⟨(resultClass_spec (JsVal.num 5) (JsVal.obj 0)).2.1,
   ((resultClass_spec (JsVal.num 5) (JsVal.obj 0)).2.2.1 rfl).1,
   (resultClass_spec (JsVal.num 5) (JsVal.str "")).2.2.2 rfl,
   (resultClass_spec (JsVal.num 5) (JsVal.num 0)).2.2.2 rfl,
   (resultClass_spec (JsVal.num 5) JsVal.null).2.2.2 rfl⟩

/-- Claim C1 (code bug): the reply filter of sendProtocolMessage accepts
a reply whose inbox differs from the freshly generated inbox, because
the destructured inbox shadows the generated one and the comparison is
inbox with itself. -/
theorem sendProtocolMessage_filter_ignores_inbox :
    protocolReplyFilter
      { channelAddress := "0xchan", fromIdentifier := "alice",
        toIdentifier := "bob", nonce := 1 }
      "0xfreshinbox"
      { to_ := "alice", from_ := "bob", inbox := some "0xotherinbox",
        data := { update := none, previousUpdate := none,
                  error := some { message := "reply of another round" } },
        sentBy := "bob" } = true ∧
    (some "0xotherinbox" : Option String) ≠ some "0xfreshinbox" := by
  refine ⟨?_, by decide⟩
  rfl

/-- Claim C3 (code bug): with numRetries = 1 the code still performs a
single send attempt, and when no matching reply arrives the operation
ends as a thrown Evt timeout, never as a returned failed Result (hence
never a MessagingTimeout error result). -/
theorem sendProtocolMessage_no_retry_and_throws_on_timeout :
    sendProtocolMessageAttempts 1 = 1 ∧
    sendProtocolMessage
      { channelAddress := "0xchan", fromIdentifier := "alice",
        toIdentifier := "bob", nonce := 1 }
      none "0xfreshinbox" [] = SendOutcome.evtTimeoutThrown ∧
    (∀ e : InboundChannelUpdateError,
      SendOutcome.evtTimeoutThrown ≠ SendOutcome.fail e) := by
  refine ⟨rfl, rfl, ?_⟩
  intro e h
  cases h

/-- Filtering the somes out of a mapped list counts the elements whose
image is some. -/
theorem length_filter_isSome_map {α β : Type} (f : α → Option β) (l : List α) :
    ((l.map f).filter Option.isSome).length
      = (l.filter (fun a => (f a).isSome)).length := by
  induction l with
  | nil => rfl
  | cons a t ih =>
    simp only [List.map_cons, List.filter_cons]
    cases h : (f a).isSome <;> simp [h, ih]

/-- Filtering an enumerated list by a predicate on the element alone
gives as many elements as filtering the plain list. -/
theorem length_filter_enumFrom {α : Type} (p : α → Bool) (l : List α) (n : Nat) :
    ((List.enumFrom n l).filter (fun q => p q.2)).length = (l.filter p).length := by
  induction l generalizing n with
  | nil => rfl
  | cons a t ih =>
    simp only [List.enumFrom, List.filter_cons]
    cases h : p a <;> simp [h, ih]

/-- A pointwise-weaker predicate filters out no more elements. -/
theorem length_filter_mono_of_imp {α : Type} (p q : α → Bool) (l : List α)
    (h : ∀ a, p a = true → q a = true) :
    (l.filter p).length ≤ (l.filter q).length := by
  induction l with
  | nil => exact Nat.le_refl 0
  | cons a t ih =>
    simp only [List.filter_cons]
    cases hp : p a
    · cases hq : q a
      · simpa using ih
      · simp only [List.length_cons]
        exact Nat.le_trans ih (Nat.le_succ _)
    · rw [h a hp]
      simpa using ih

/-- The per-slot callback of validateChannelUpdateSignatures succeeds
exactly on valid slots. -/
theorem checkSig_isSome (hashFn : ChannelCommitmentData → String)
    (r : String → String → String) (st : FullChannelState)
    (i : Nat) (osig : Option String) :
    (checkSig r st.participants (hashFn (commitmentHashPreimage st)) i osig).isSome
      = slotValid hashFn r st i osig := by
  cases osig with
  | none => rfl
  | some s =>
    simp only [checkSig, slotValid, truthySig]
    cases hs : s == ""
    · have hs' : ¬s = "" := by simpa using hs
      cases hp : st.participants[i]? with
      | none => simp [hp, hs, hs']
      | some participant =>
        cases hr : r (hashFn (commitmentHashPreimage st)) s == participant <;>
          simp [hp, hr, hs, hs']
    · have hs' : s = "" := by simpa using hs
      subst hs'
      simp

/-- The number of slots surviving the recovery pass of
validateChannelUpdateSignatures equals validSigCount. -/
theorem validate_inner_length (hashFn : ChannelCommitmentData → String)
    (r : String → String → String) (st : FullChannelState)
    (sigs : List (Option String)) :
    ((sigs.enum.map
        (fun p => checkSig r st.participants (hashFn (commitmentHashPreimage st)) p.1 p.2)).filter
      Option.isSome).length = validSigCount hashFn r st sigs := by
  rw [length_filter_isSome_map]
  unfold validSigCount
  have hfun : (fun p : Nat × Option String =>
      (checkSig r st.participants (hashFn (commitmentHashPreimage st)) p.1 p.2).isSome)
      = fun p : Nat × Option String => slotValid hashFn r st p.1 p.2 :=
    funext fun p => checkSig_isSome hashFn r st p.1 p.2
  rw [hfun]

/-- At most as many slots are valid as are non-empty. -/
theorem validSigCount_le_present (hashFn : ChannelCommitmentData → String)
    (r : String → String → String) (st : FullChannelState)
    (sigs : List (Option String)) :
    validSigCount hashFn r st sigs ≤ (sigs.filter truthySig).length := by
  unfold validSigCount
  have h1 : (sigs.enum.filter
        (fun p => slotValid hashFn r st p.1 p.2)).length
      ≤ (sigs.enum.filter (fun p => truthySig p.2)).length := by
    apply length_filter_mono_of_imp
    intro a ha
    unfold slotValid at ha
    exact ((Bool.and_eq_true _ _).mp ha).1
  calc (sigs.enum.filter (fun p => slotValid hashFn r st p.1 p.2)).length
      ≤ (sigs.enum.filter (fun p => truthySig p.2)).length := h1
    _ = (sigs.filter truthySig).length := length_filter_enumFrom truthySig sigs 0

/-- A concrete full channel state shared by the concrete evaluations
below. -/
def sampleState : FullChannelState :=
  { channelAddress := "0xchannel"
    participants := ["0xaaa", "0xbbb"]
    timeout := 86400
    balances := [{ to_ := ["0xaaa", "0xbbb"], amount := [100, 0] }]
    lockedBalance := [0]
    assetIds := ["0x0"]
    nonce := 2
    latestDepositNonce := 1
    merkleRoot := "0xroot"
    latestUpdate := none
    publicIdentifiers := ["alice", "bob"]
    networkContext := { chainId := 1, adjudicatorAddress := "0xadjudicator" } }

/-- A hash collaborator for concrete evaluations. -/
def sampleHashFn : ChannelCommitmentData → String := fun _ => "H0"

/-- A recovery collaborator for concrete evaluations: only the
signature string decides the recovered address. -/
def sampleRecover : String → String → String := fun _ s =>
  if s == "sigA" then "0xaaa" else "0xzzz"

/-- Claim C4, as stated, is false on the code: with requiredSigs = 1,
participants ["0xaaa", "0xbbb"], a valid alice signature in slot 0 and
a non-empty signature in slot 1 that recovers to neither participant,
validateChannelUpdateSignatures returns no error even though a
non-empty slot fails to recover to its participant. -/
theorem validateSignatures_claim_counterexample :
    validateChannelUpdateSignatures sampleHashFn sampleRecover sampleState
      [some "sigA", some "bad"] 1 = none ∧
    truthySig (some "bad") = true ∧
    sampleRecover (sampleHashFn (commitmentHashPreimage sampleState)) "bad" ≠ "0xbbb" ∧
    sampleState.participants[1]? = some "0xbbb" := by
  refine ⟨rfl, rfl, ?_, rfl⟩
  decide

/-- Claim C4 amended: validateChannelUpdateSignatures rejects whenever
fewer than requiredSigs slots are non-empty and whenever fewer than
requiredSigs non-empty slots recover to their own participant, and it
returns no error exactly when at least requiredSigs slots are valid
(each non-empty and recovering to its own participant); a wrong-slot
signature never counts as valid, but an invalid extra signature beyond
the required count is ignored rather than rejected. -/
theorem validateChannelUpdateSignatures_amended
    (hashFn : ChannelCommitmentData → String)
    (r : String → String → String) (st : FullChannelState)
    (sigs : List (Option String)) (req : Nat) :
    validateChannelUpdateSignatures hashFn r st sigs req = none ↔
      req ≤ validSigCount hashFn r st sigs := by
  have hinner := validate_inner_length hashFn r st sigs
  have hle := validSigCount_le_present hashFn r st sigs
  simp only [validateChannelUpdateSignatures]
  split_ifs with h1 h2
  · constructor
    · intro hc
      exact absurd hc (by simp)
    · intro hge
      omega
  · rw [hinner] at h2
    constructor
    · intro hc
      exact absurd hc (by simp)
    · intro hge
      omega
  · rw [hinner] at h2
    constructor
    · intro _
      omega
    · intro _
      rfl

/-- Claim C5: when both provided signatures are non-empty,
generateSignedChannelCommitment returns them unchanged and never
consults the signer (the result is the same for every signing
function); otherwise the fresh signature lands in the slot of the
participant matching the signer address (first match, as findIndex
does) and the counterparty's existing signature, if any, fills the
other slot. -/
theorem generateSignedChannelCommitment_slots
    (hashFn : ChannelCommitmentData → String) (signerAddress : String)
    (signMessage : String → String) (newState : FullChannelState)
    (updateSignatures : List (Option String)) (p0 p1 : String)
    (hp : newState.participants = [p0, p1]) :
    ((updateSignatures.filter truthySig).length = 2 →
      (generateSignedChannelCommitment hashFn signerAddress signMessage
        newState updateSignatures).signatures = updateSignatures ∧
      ∀ g : String → String,
        generateSignedChannelCommitment hashFn signerAddress g newState updateSignatures
          = generateSignedChannelCommitment hashFn signerAddress signMessage
              newState updateSignatures) ∧
    ((updateSignatures.filter truthySig).length ≠ 2 →
      (p0 = signerAddress →
        (generateSignedChannelCommitment hashFn signerAddress signMessage
          newState updateSignatures).signatures
          = [some (signMessage (hashFn (commitmentHashPreimage newState))),
             (updateSignatures.filter truthySig).head?.join]) ∧
      (p1 = signerAddress → p0 ≠ signerAddress →
        (generateSignedChannelCommitment hashFn signerAddress signMessage
          newState updateSignatures).signatures
          = [(updateSignatures.filter truthySig).head?.join,
             some (signMessage (hashFn (commitmentHashPreimage newState)))])) := by
  constructor
  · intro h2
    constructor
    · simp [generateSignedChannelCommitment, h2]
    · intro g
      simp [generateSignedChannelCommitment, h2]
  · intro hne
    constructor
    · intro h0
      have hb0 : (p0 == signerAddress) = true := by simpa using h0
      simp [generateSignedChannelCommitment, List.findIdx?_cons, hp, hne, hb0]
    · intro h1 hne0
      have hb0 : (p0 == signerAddress) = false := by simpa using hne0
      have hb1 : (p1 == signerAddress) = true := by simpa using h1
      simp [generateSignedChannelCommitment, List.findIdx?_cons, hp, hne, hb0, hb1]

/-- Witness for C5 at a concrete state: signer is participant 0, the
counterparty signature sits in slot 1, and with two non-empty provided
signatures nothing is re-signed. -/
theorem generateSignedChannelCommitment_slots_witness :
    (generateSignedChannelCommitment sampleHashFn "0xaaa"
        (fun d => "sig-" ++ d) sampleState [none, some "csig"]).signatures
      = [some "sig-H0", some "csig"] ∧
    (generateSignedChannelCommitment sampleHashFn "0xaaa"
        (fun d => "sig-" ++ d) sampleState [some "s0", some "s1"]).signatures
      = [some "s0", some "s1"] := by
  have h1 := generateSignedChannelCommitment_slots sampleHashFn "0xaaa"
    (fun d => "sig-" ++ d) sampleState [none, some "csig"] "0xaaa" "0xbbb" rfl
  have h2 := generateSignedChannelCommitment_slots sampleHashFn "0xaaa"
    (fun d => "sig-" ++ d) sampleState [some "s0", some "s1"] "0xaaa" "0xbbb" rfl
  constructor
  · have := (h1.2 (by decide)).1 rfl
    simpa using this
  · exact (h2.1 (by decide)).1

/-- Claim C6: both functions hash the commitment record built from the
state with an empty signatures field; the digest therefore does not
depend on any attached signature array, and each function observes its
cryptographic collaborator only at that digest (validation is unchanged
under any recovery function agreeing at the digest, and signing is
unchanged under any signer agreeing at the digest). -/
theorem commitmentDigest_ignores_signatures
    (hashFn : ChannelCommitmentData → String) (signerAddress : String)
    (st : FullChannelState) (sigs1 sigs2 : List (Option String)) (req : Nat)
    (r1 r2 : String → String → String) (sg1 sg2 : String → String)
    (hr : ∀ s, r1 (hashFn (commitmentHashPreimage st)) s
      = r2 (hashFn (commitmentHashPreimage st)) s)
    (hs : sg1 (hashFn (commitmentHashPreimage st))
      = sg2 (hashFn (commitmentHashPreimage st))) :
    (commitmentHashPreimage st).signatures = [] ∧
    validateChannelUpdateSignatures hashFn r1 st sigs1 req
      = validateChannelUpdateSignatures hashFn r2 st sigs1 req ∧
    generateSignedChannelCommitment hashFn signerAddress sg1 st sigs2
      = generateSignedChannelCommitment hashFn signerAddress sg2 st sigs2 := by
  refine ⟨rfl, ?_, ?_⟩
  · have hcheck : ∀ i osig,
        checkSig r1 st.participants (hashFn (commitmentHashPreimage st)) i osig
          = checkSig r2 st.participants (hashFn (commitmentHashPreimage st)) i osig := by
      intro i osig
      cases osig with
      | none => rfl
      | some s => simp [checkSig, hr s]
    have hfun : (fun p : Nat × Option String =>
        checkSig r1 st.participants (hashFn (commitmentHashPreimage st)) p.1 p.2)
        = fun p : Nat × Option String =>
        checkSig r2 st.participants (hashFn (commitmentHashPreimage st)) p.1 p.2 :=
      funext fun p => hcheck p.1 p.2
    simp only [validateChannelUpdateSignatures, hfun]
  · simp only [generateSignedChannelCommitment, hs]

/-- Witness for C6: two recovery functions that differ away from the
digest but agree at it validate identically, and two signers agreeing
at the digest generate identical commitments. -/
theorem commitmentDigest_ignores_signatures_witness :
    (commitmentHashPreimage sampleState).signatures = [] ∧
    validateChannelUpdateSignatures sampleHashFn sampleRecover sampleState
        [some "sigA", none] 1
      = validateChannelUpdateSignatures sampleHashFn
          (fun h s => if h == "H0" then sampleRecover h s else "0xelsewhere")
          sampleState [some "sigA", none] 1 ∧
    generateSignedChannelCommitment sampleHashFn "0xaaa" (fun _ => "S")
        sampleState [none, some "csig"]
      = generateSignedChannelCommitment sampleHashFn "0xaaa"
          (fun d => if d == "H0" then "S" else "T")
          sampleState [none, some "csig"] :=
  commitmentDigest_ignores_signatures sampleHashFn "0xaaa" sampleState
    [some "sigA", none] [none, some "csig"] 1
    sampleRecover (fun h s => if h == "H0" then sampleRecover h s else "0xelsewhere")
    (fun _ => "S") (fun d => if d == "H0" then "S" else "T")
    (fun _ => rfl) rfl

/-- Claim C2: on a two-element initial balance and a successful pair of
chain reads, reconcileDeposit gives participant 0 the deposited amount
plus their previous balance exactly when the chain deposit nonce
strictly exceeds the stored one (unchanged otherwise), gives
participant 1 the on-chain balance minus participant 0's new balance
minus the locked balance, and returns the chain record's nonce as the
new latestDepositNonce. -/
theorem reconcileDeposit_spec (initialBalance : Balance)
    (latestDepositNonce : Nat) (lockedBalance onchainBalance : Int)
    (dep : DepositRecord) (a0 a1 : Int)
    (h : initialBalance.amount = [a0, a1]) :
    reconcileDeposit initialBalance latestDepositNonce lockedBalance
        (Except.ok onchainBalance) (Except.ok dep) =
      Except.ok
        { balance :=
            { initialBalance with
              amount :=
                [(if latestDepositNonce < dep.nonce then dep.amount + a0 else a0),
                 onchainBalance
                   - (if latestDepositNonce < dep.nonce then dep.amount + a0 else a0)
                   - lockedBalance] }
          latestDepositNonce := dep.nonce } := by
  simp only [reconcileDeposit, h, List.headI]
  have harith : ∀ a : Int,
      onchainBalance - (a + lockedBalance) = onchainBalance - a - lockedBalance := by
    intro a
    ring
  rw [harith]

/-- Witness for C2: the spec's deposit-reconciliation scenario — from
balances [0, 0], stored nonce 0, on-chain balance 100 and deposit
record (amount 100, nonce 1), the result is balances [100, 0] and
latestDepositNonce 1. -/
theorem reconcileDeposit_spec_witness :
    reconcileDeposit { to_ := ["0xaaa", "0xbbb"], amount := [0, 0] } 0 0
        (Except.ok 100) (Except.ok { amount := 100, nonce := 1 }) =
      Except.ok
        { balance := { to_ := ["0xaaa", "0xbbb"], amount := [100, 0] }
          latestDepositNonce := 1 } := by
  have h := reconcileDeposit_spec { to_ := ["0xaaa", "0xbbb"], amount := [0, 0] }
    0 0 100 { amount := 100, nonce := 1 } 0 0 rfl
  simpa using h

/-- Claim C7 (code bug): with a failing local execution (or no
bytecode), `create` invokes the on-chain method on the contract
constructed at `transfer.transferId`, not at
`transfer.transferDefinition` as the spec prescribes (and as `resolve`
does).  The indicator contract function returns whether it was invoked
at the transferId address. -/
theorem create_uses_transferId_address :
    createContractAddress
        { transferId := "0xtransferId", transferDefinition := "0xdefinition",
          transferState := "state", transferResolver := "resolver",
          transferEncodings := ["enc0", "enc1"] }
      ≠ "0xdefinition" ∧
    resolveContractAddress
        { transferId := "0xtransferId", transferDefinition := "0xdefinition",
          transferState := "state", transferResolver := "resolver",
          transferEncodings := ["enc0", "enc1"] }
      = "0xdefinition" ∧
    create
        { transferId := "0xtransferId", transferDefinition := "0xdefinition",
          transferState := "state", transferResolver := "resolver",
          transferEncodings := ["enc0", "enc1"] }
        (fun _ s => s) (fun _ args => String.intercalate "," args)
        (fun _ _ => Except.error "vm failure") (fun _ => Except.error "decode failure")
        (fun addr _ => addr == "0xtransferId") (some "0xcode")
      = true ∧
    create
        { transferId := "0xtransferId", transferDefinition := "0xdefinition",
          transferState := "state", transferResolver := "resolver",
          transferEncodings := ["enc0", "enc1"] }
        (fun _ s => s) (fun _ args => String.intercalate "," args)
        (fun _ _ => Except.error "vm failure") (fun _ => Except.error "decode failure")
        (fun addr _ => addr == "0xdefinition") none
      = false := by
  refine ⟨?_, rfl, rfl, rfl⟩
  decide

/-- Claim C8: each of the three publishing paths carries exactly one of
data.update or data.error, and the reply sendProtocolMessage accepts
decides its Result: a failed Result exactly when the reply carries an
error, the update pair otherwise. -/
theorem protocolMessages_exactly_one_and_send_result
    (channelUpdate : ChannelUpdate) (previousUpdate : Option ChannelUpdate)
    (inbox sentBy updateFromIdentifier updateToIdentifier : String)
    (error : InboundChannelUpdateError) (replies : List Msg) (m : Msg) :
    exactlyOneUpdateOrError
      (sendProtocolMessagePosted channelUpdate previousUpdate inbox) = true ∧
    exactlyOneUpdateOrError
      (respondToProtocolMessagePosted sentBy channelUpdate inbox previousUpdate) = true ∧
    exactlyOneUpdateOrError
      (respondWithProtocolErrorPosted updateFromIdentifier updateToIdentifier
        inbox error) = true ∧
    (replies.find? (protocolReplyFilter channelUpdate inbox) = some m →
      (∀ e, m.data.error = some e →
        sendProtocolMessage channelUpdate previousUpdate inbox replies
          = SendOutcome.fail e) ∧
      (m.data.error = none →
        sendProtocolMessage channelUpdate previousUpdate inbox replies
          = SendOutcome.ok m.data.update m.data.previousUpdate)) := by
  refine ⟨rfl, rfl, rfl, ?_⟩
  intro hfind
  constructor
  · intro e he
    simp [sendProtocolMessage, hfind, he]
  · intro he
    simp [sendProtocolMessage, hfind, he]

/-- Witness for C8: a concrete round in which the accepted reply
carries an error yields a failed Result, and one whose reply carries an
update yields the update pair. -/
theorem protocolMessages_exactly_one_and_send_result_witness :
    sendProtocolMessage
        { channelAddress := "0xchan", fromIdentifier := "alice",
          toIdentifier := "bob", nonce := 1 }
        none "0xinbox"
        [{ to_ := "alice", from_ := "bob", inbox := some "0xinbox",
           data := { update := none, previousUpdate := none,
                     error := some { message := "rejected" } },
           sentBy := "bob" }]
      = SendOutcome.fail { message := "rejected" } ∧
    exactlyOneUpdateOrError
      (respondWithProtocolErrorPosted "alice" "bob" "0xinbox"
        { message := "rejected" }) = true := by
  have h := protocolMessages_exactly_one_and_send_result
    { channelAddress := "0xchan", fromIdentifier := "alice",
      toIdentifier := "bob", nonce := 1 }
    none "0xinbox" "bob" "alice" "bob" { message := "rejected" }
    [{ to_ := "alice", from_ := "bob", inbox := some "0xinbox",
       data := { update := none, previousUpdate := none,
                 error := some { message := "rejected" } },
       sentBy := "bob" }]
    { to_ := "alice", from_ := "bob", inbox := some "0xinbox",
      data := { update := none, previousUpdate := none,
                error := some { message := "rejected" } },
      sentBy := "bob" }
  exact ⟨(h.2.2.2 rfl).1 { message := "rejected" } rfl, h.2.2.1⟩

/-- Claim C10: onReceiveProtocolMessage invokes the handler exactly for
messages addressed to the subscriber, and always hands it a successful
Result wrapping the (possibly undefined) update pair — even when the
message data carries only an error. -/
theorem onReceiveProtocolMessage_always_ok (myPublicIdentifier : String) (m : Msg) :
    ((onReceiveProtocolMessage myPublicIdentifier m).isSome ↔
      m.to_ = myPublicIdentifier) ∧
    (∀ r fromId inboxId,
      onReceiveProtocolMessage myPublicIdentifier m = some (r, fromId, inboxId) →
        r.isError = false ∧
        r.value = some { update := m.data.update, previousUpdate := m.data.previousUpdate } ∧
        r.error = none ∧ fromId = m.from_ ∧ inboxId = m.inbox) := by
  constructor
  · constructor
    · intro hs
      by_cases hto : (m.to_ == myPublicIdentifier) = true
      · exact eq_of_beq hto
      · rw [onReceiveProtocolMessage, if_neg hto] at hs
        simp at hs
    · intro he
      rw [onReceiveProtocolMessage, if_pos (by simp [he])]
      rfl
  · intro r fromId inboxId hdeliver
    rw [onReceiveProtocolMessage] at hdeliver
    by_cases hto : (m.to_ == myPublicIdentifier) = true
    · rw [if_pos hto, Option.some.injEq, Prod.mk.injEq, Prod.mk.injEq] at hdeliver
      obtain ⟨hr, hf, hi⟩ := hdeliver
      subst hr
      exact ⟨rfl, rfl, rfl, hf.symm, hi.symm⟩
    · rw [if_neg hto] at hdeliver
      simp at hdeliver

/-- Witness for C10: a message carrying only an error, addressed to the
subscriber, is delivered as a successful Result with undefined update;
one addressed elsewhere is dropped. -/
theorem onReceiveProtocolMessage_always_ok_witness :
    (onReceiveProtocolMessage "alice"
        { to_ := "alice", from_ := "bob", inbox := some "0xinbox",
          data := { update := none, previousUpdate := none,
                    error := some { message := "only an error" } },
          sentBy := "bob" }).isSome = true ∧
    (∀ r fromId inboxId,
      onReceiveProtocolMessage "alice"
          { to_ := "alice", from_ := "bob", inbox := some "0xinbox",
            data := { update := none, previousUpdate := none,
                      error := some { message := "only an error" } },
            sentBy := "bob" } = some (r, fromId, inboxId) →
        r.isError = false) ∧
    (onReceiveProtocolMessage "carol"
        { to_ := "alice", from_ := "bob", inbox := some "0xinbox",
          data := { update := none, previousUpdate := none,
                    error := some { message := "only an error" } },
          sentBy := "bob" }).isSome = false := by
  have h := onReceiveProtocolMessage_always_ok "alice"
    { to_ := "alice", from_ := "bob", inbox := some "0xinbox",
      data := { update := none, previousUpdate := none,
                error := some { message := "only an error" } },
      sentBy := "bob" }
  have h2 := onReceiveProtocolMessage_always_ok "carol"
    { to_ := "alice", from_ := "bob", inbox := some "0xinbox",
      data := { update := none, previousUpdate := none,
                error := some { message := "only an error" } },
      sentBy := "bob" }
  refine ⟨h.1.mpr rfl, ?_, ?_⟩
  · intro r fromId inboxId hdeliver
    exact (h.2 r fromId inboxId hdeliver).1
  · have hne : ¬((onReceiveProtocolMessage "carol"
        { to_ := "alice", from_ := "bob", inbox := some "0xinbox",
          data := { update := none, previousUpdate := none,
                    error := some { message := "only an error" } },
          sentBy := "bob" }).isSome = true) := fun hs => by
      simpa using h2.1.mp hs
    simpa using hne

end Connext
